import Mathlib

/-!
Shallow embedding of `src/index.js` (HealthLabPadel/healthlab-padel-bot).

The database is modelled as two lists of rows (`users`, `subscriptions`),
mirroring the tables created by `initDb`.  Each SQL statement of the source
becomes a pure list transformation; each bot handler and the Stripe webhook
handler become functions from the database state (plus the request data) to
the new state together with the reply sent to the user / the HTTP status.
Timestamps (`created_at`, `updated_at`) are not modelled: no claim is about
real time.  JavaScript truthiness on optional strings (null / undefined /
empty string are falsy) is modelled by `truthyStr`.
-/

namespace HealthLabPadel

/-- JS truthiness for an optional string value: `null`/`undefined` and the
empty string are falsy; any other string is truthy (returned unchanged). -/
def truthyStr : Option String → Option String
  | none => none
  | some s => if s = "" then none else some s

/-- A row of the `users` table (`initDb`): primary key `telegram_user_id`,
`language text not null default 'ru'`, nullable `stripe_customer_id`. -/
structure UserRow where
  telegram_user_id : Nat
  language : String
  stripe_customer_id : Option String
  deriving Repr, DecidableEq

/-- A row of the `subscriptions` table (`initDb`): primary key
`telegram_user_id`, nullable unique `stripe_subscription_id`, `status`. -/
structure SubscriptionRow where
  telegram_user_id : Nat
  stripe_subscription_id : Option String
  status : String
  deriving Repr, DecidableEq

/-- The database state: the two tables created by `initDb`. -/
structure Db where
  users : List UserRow
  subscriptions : List SubscriptionRow
  deriving Repr, DecidableEq

/-- The empty database (right after `initDb` on a fresh store). -/
def Db.empty : Db := ⟨[], []⟩

/-- The row effect of `do update set language = excluded.language` on the
rows matched by the conflict key. -/
def langUpd (telegramUserId : Nat) (language : String) (r : UserRow) : UserRow :=
  if r.telegram_user_id == telegramUserId then { r with language := language }
  else r

/-- `upsertUserLanguage`: `insert … on conflict (telegram_user_id) do update
set language = excluded.language`. -/
def upsertUserLanguage (telegramUserId : Nat) (language : String) (db : Db) : Db :=
  if db.users.any (fun r => r.telegram_user_id == telegramUserId) then
    { db with users := db.users.map (langUpd telegramUserId language) }
  else
    { db with users := db.users ++ [⟨telegramUserId, language, none⟩] }

/-- `getUser`: `select … from users where telegram_user_id = $1`, returning
`r.rows[0] || null`. -/
def getUser (telegramUserId : Nat) (db : Db) : Option UserRow :=
  db.users.find? (fun r => r.telegram_user_id == telegramUserId)

/-- `ensureUserExists`: `insert into users (telegram_user_id) values ($1)
on conflict (telegram_user_id) do nothing`; the omitted `language` column
takes its schema default `'ru'` and `stripe_customer_id` stays null. -/
def ensureUserExists (telegramUserId : Nat) (db : Db) : Db :=
  if db.users.any (fun r => r.telegram_user_id == telegramUserId) then db
  else { db with users := db.users ++ [⟨telegramUserId, "ru", none⟩] }

/-- The row effect of `update users set stripe_customer_id = $2 where
telegram_user_id = $1`. -/
def custUpd (telegramUserId : Nat) (stripeCustomerId : String) (r : UserRow) :
    UserRow :=
  if r.telegram_user_id == telegramUserId then
    { r with stripe_customer_id := some stripeCustomerId }
  else r

/-- The first statement of `setSubscriptionFromCheckout`: `update users set
stripe_customer_id = $2 where telegram_user_id = $1`. -/
def updateUserCustomer (telegramUserId : Nat) (stripeCustomerId : String)
    (db : Db) : Db :=
  { db with users := db.users.map (custUpd telegramUserId stripeCustomerId) }

/-- The row effect of `do update set stripe_subscription_id = excluded…,
status = excluded…` on the rows matched by the conflict key. -/
def subUpd (telegramUserId : Nat) (stripeSubscriptionId : String) (st : String)
    (s : SubscriptionRow) : SubscriptionRow :=
  if s.telegram_user_id == telegramUserId then
    { s with stripe_subscription_id := some stripeSubscriptionId, status := st }
  else s

/-- The second statement of `setSubscriptionFromCheckout`: `insert into
subscriptions … on conflict (telegram_user_id) do update set
stripe_subscription_id = excluded…, status = excluded…`, where the bound
status value is `status || "active"` (a falsy status falls back). -/
def upsertSubscriptionRow (telegramUserId : Nat) (stripeSubscriptionId : String)
    (status : Option String) (db : Db) : Db :=
  if db.subscriptions.any (fun s => s.telegram_user_id == telegramUserId) then
    { db with subscriptions :=
        (db.subscriptions.map
          (subUpd telegramUserId stripeSubscriptionId
            ((truthyStr status).getD "active"))) }
  else
    { db with subscriptions := db.subscriptions ++
        [⟨telegramUserId, some stripeSubscriptionId,
          (truthyStr status).getD "active"⟩] }

/-- `setSubscriptionFromCheckout`: the two statements above in sequence. -/
def setSubscriptionFromCheckout (telegramUserId : Nat) (stripeCustomerId : String)
    (stripeSubscriptionId : String) (status : Option String) (db : Db) : Db :=
  upsertSubscriptionRow telegramUserId stripeSubscriptionId status
    (updateUserCustomer telegramUserId stripeCustomerId db)

/-- The row effect of `update subscriptions set status = $2 where
stripe_subscription_id = $1`. -/
def statusUpd (stripeSubscriptionId : String) (status : String)
    (s : SubscriptionRow) : SubscriptionRow :=
  if s.stripe_subscription_id == some stripeSubscriptionId then
    { s with status := status }
  else s

/-- `setSubscriptionStatusBySubId`: `update subscriptions set status = $2 …
where stripe_subscription_id = $1`; matching no row is a no-op. -/
def setSubscriptionStatusBySubId (stripeSubscriptionId : String) (status : String)
    (db : Db) : Db :=
  { db with subscriptions :=
      db.subscriptions.map (statusUpd stripeSubscriptionId status) }

/-- Decimal digits to a number, accumulator style; any non-digit character
makes the whole parse fail (JS `Number` yields NaN there). -/
def digitsToNat? : List Char → Nat → Option Nat
  | [], acc => some acc
  | c :: cs, acc =>
    if c.isDigit then digitsToNat? cs (10 * acc + (c.toNat - 48)) else none

/-- JS `Number` on a non-empty string, restricted to the decimal-digit
strings that Telegram user ids are in practice. -/
def decimalToNat? (s : String) : Option Nat :=
  digitsToNat? s.data 0

/-- `telegramUserIdRaw ? Number(telegramUserIdRaw) : null` followed by the
falsy guard on the result: a missing or empty string yields null, a
non-numeric string yields NaN (falsy) and `"0"` yields 0 (falsy). -/
def parseTelegramUserId (raw : Option String) : Option Nat :=
  match truthyStr raw with
  | none => none
  | some s =>
    match decimalToNat? s with
    | none => none
    | some 0 => none
    | some n => some n

/-- A verified Stripe event as `handleStripeEvent` reads it: `event.type`
and the fields of `event.data.object` that the handler accesses
(`metadata.telegram_user_id`, `customer`, `subscription` for checkout
sessions; `id`, `status` for subscription objects). -/
structure StripeEvent where
  type : String
  metadata_telegram_user_id : Option String
  customer : Option String
  subscription : Option String
  sub_id : Option String
  sub_status : Option String
  deriving Repr, DecidableEq

/-- The guard of the `checkout.session.completed` branch:
`if (!telegramUserId || !stripeCustomerId || !stripeSubscriptionId) return`.
Returns the three extracted values when all are truthy. -/
def checkoutFields (raw customer subscription : Option String) :
    Option (Nat × String × String) :=
  match parseTelegramUserId raw, truthyStr customer, truthyStr subscription with
  | some uid, some c, some s => some (uid, c, s)
  | _, _, _ => none

/-- `handleStripeEvent`: the switch on `event.type`.  The Telegram
notification after a completed checkout is fire-and-forget (its failure is
caught) and does not touch the database, so it is not part of the state. -/
def handleStripeEvent (event : StripeEvent) (db : Db) : Db :=
  if event.type = "checkout.session.completed" then
    match checkoutFields event.metadata_telegram_user_id event.customer
        event.subscription with
    | none => db
    | some (uid, cust, sub) =>
      setSubscriptionFromCheckout uid cust sub (some "active")
        (ensureUserExists uid db)
  else if event.type = "customer.subscription.updated" then
    match truthyStr event.sub_id, truthyStr event.sub_status with
    | some i, some st => setSubscriptionStatusBySubId i st db
    | _, _ => db
  else if event.type = "customer.subscription.deleted" then
    match truthyStr event.sub_id with
    | some i => setSubscriptionStatusBySubId i "canceled" db
    | none => db
  else db

/-- The `/stripe/webhook` endpoint.  `stripe.webhooks.constructEvent` either
yields a verified event or throws; a throw is caught and answered with
status 400 before any database access, a verified event is passed to
`handleStripeEvent` and answered with status 200. -/
def stripeWebhook (verified : Option StripeEvent) (db : Db) : Nat × Db :=
  match verified with
  | none => (400, db)
  | some e => (200, handleStripeEvent e db)

/-- The language-selection prompt text sent with `languageKeyboard()`. -/
def langPromptText : String := "Выберите язык / Izvēlieties valodu"

/-- `bot.start`: ensure the user row exists, read it back, then dispatch on
`user?.language || null`. -/
def botStart (uid : Nat) (db : Db) : Db × String :=
  let db1 := ensureUserExists uid db
  let lang : Option String :=
    match getUser uid db1 with
    | none => none
    | some u => truthyStr (some u.language)
  if lang = some "ru" then
    (db1, "Добро пожаловать в Health Lab Padel - RU")
  else if lang = some "lv" then
    (db1, "Laipni lūdzam Health Lab Padel - LV")
  else
    (db1, langPromptText)

/-- `bot.action("change_lang")`: replies with the language keyboard, no
database access. -/
def botChangeLang (db : Db) : Db × String :=
  (db, langPromptText)

/-- `bot.action("lang_ru")`: upserts language `"ru"` and confirms. -/
def botLangRu (uid : Nat) (db : Db) : Db × String :=
  (upsertUserLanguage uid "ru" db,
   "Язык сохранен. Добро пожаловать в Health Lab Padel - RU")

/-- `bot.action("lang_lv")`: upserts language `"lv"` and confirms. -/
def botLangLv (uid : Nat) (db : Db) : Db × String :=
  (upsertUserLanguage uid "lv" db,
   "Valoda saglabāta. Laipni lūdzam Health Lab Padel - LV")

/-- `bot.action("more")`: reads the user's language and replies with the
channel description; no write. -/
def botMore (uid : Nat) (db : Db) : Db × String :=
  let lang := match getUser uid db with
    | none => "ru"
    | some u => (truthyStr (some u.language)).getD "ru"
  if lang = "lv" then
    (db, "Kanālā: uzturs padel spēlētājiem, papildinājumi, atjaunošanās, praktiski protokoli un Q&A.")
  else
    (db, "В канале: питание для паделистов, добавки, восстановление, практические протоколы и Q&A.")

/-- `bot.action("subscribe")`: reads the user, asks Stripe to create a
checkout session (an external call that may fail, modelled by `ok`), and
replies; in both branches the database is not written. -/
def botSubscribe (uid : Nat) (ok : Bool) (db : Db) : Db × String :=
  let lang := match getUser uid db with
    | none => "ru"
    | some u => (truthyStr (some u.language)).getD "ru"
  if ok then
    if lang = "lv" then
      (db, "Lūdzu, atveriet Stripe Checkout, lai aktivizētu abonementu:")
    else
      (db, "Откройте Stripe Checkout, чтобы активировать подписку:")
  else
    if lang = "lv" then
      (db, "Kļūda, veidojot maksājumu. Mēģiniet vēlreiz pēc brīža.")
    else
      (db, "Ошибка при создании оплаты. Попробуйте еще раз через минуту.")

/-- Outcome of the `manage` handler: either the "subscribe first" reply
(no billing-portal session is created), or a billing-portal session was
requested from Stripe and the reply reports its success or failure. -/
inductive ManageOutcome where
  | subscribeFirstMsg (msg : String)
  | portalOpened (msg : String)
  | portalFailed (msg : String)
  deriving Repr, DecidableEq

/-- The localized "subscribe first" reply of `bot.action("manage")`. -/
def subscribeFirstText (lang : String) : String :=
  if lang = "lv" then "Vispirms aktivizējiet abonementu (Abonēt)."
  else "Сначала оформите подписку (Оформить подписку)."

/-- `bot.action("manage")`: reads the user; with no row or a falsy
`stripe_customer_id` it replies "subscribe first" and returns; otherwise it
asks Stripe for a billing-portal session (external call modelled by
`portalOk`).  No branch writes the database. -/
def botManage (uid : Nat) (portalOk : Bool) (db : Db) : Db × ManageOutcome :=
  let user := getUser uid db
  let lang : String :=
    match user with
    | none => "ru"
    | some u => (truthyStr (some u.language)).getD "ru"
  match user with
  | none => (db, .subscribeFirstMsg (subscribeFirstText lang))
  | some u =>
    match truthyStr u.stripe_customer_id with
    | none => (db, .subscribeFirstMsg (subscribeFirstText lang))
    | some _ =>
      if portalOk then
        (db, .portalOpened (if lang = "lv"
          then "Atveriet portālu, lai pārvaldītu abonementu (atcelt, atjaunot):"
          else "Откройте портал, чтобы управлять подпиской (отмена, возобновление):"))
      else
        (db, .portalFailed (if lang = "lv"
          then "Neizdevās izveidot portālu. Mēģiniet vēlreiz."
          else "Не удалось открыть портал. Попробуйте еще раз."))

/-- One user-initiated bot interaction (command or callback action); the
booleans stand for the success of the external Stripe API call involved. -/
inductive BotOp where
  | start (uid : Nat)
  | changeLang
  | langRu (uid : Nat)
  | langLv (uid : Nat)
  | more (uid : Nat)
  | subscribe (uid : Nat) (ok : Bool)
  | manage (uid : Nat) (ok : Bool)
  deriving Repr, DecidableEq

/-- The database effect of one bot handler. -/
def applyBotOp (op : BotOp) (db : Db) : Db :=
  match op with
  | .start uid => (botStart uid db).1
  | .changeLang => (botChangeLang db).1
  | .langRu uid => (botLangRu uid db).1
  | .langLv uid => (botLangLv uid db).1
  | .more uid => (botMore uid db).1
  | .subscribe uid ok => (botSubscribe uid ok db).1
  | .manage uid ok => (botManage uid ok db).1

/-- Running a sequence of bot handlers. -/
def runBotOps (ops : List BotOp) (db : Db) : Db :=
  ops.foldl (fun d o => applyBotOp o d) db

/-- Any inbound operation of the system: a bot interaction or a webhook
delivery (with `none` standing for a request whose signature check threw). -/
inductive SysOp where
  | bot (op : BotOp)
  | webhook (verified : Option StripeEvent)
  deriving Repr, DecidableEq

/-- The database effect of one system operation. -/
def applySysOp (op : SysOp) (db : Db) : Db :=
  match op with
  | .bot b => applyBotOp b db
  | .webhook v => (stripeWebhook v db).2

/-- Running a sequence of system operations. -/
def runSysOps (ops : List SysOp) (db : Db) : Db :=
  ops.foldl (fun d o => applySysOp o d) db

/-- The number of `subscriptions` rows keyed by a given telegram user id. -/
def countSubsFor (uid : Nat) (db : Db) : Nat :=
  db.subscriptions.countP (fun s => s.telegram_user_id == uid)

/-- The invariant that every stored user language is `"ru"` or `"lv"`. -/
def langInv (db : Db) : Prop :=
  ∀ r ∈ db.users, r.language = "ru" ∨ r.language = "lv"

/-- A sample well-formed checkout-completed event, used to instantiate the
universally quantified theorems below. -/
def evCheckout42 : StripeEvent :=
  ⟨"checkout.session.completed", some "42", some "cus_1", some "sub_1", none, none⟩

/-! ## Generic list lemmas -/

section ListLemmas
variable {α : Type _}

theorem any_map_eq (f : α → α) (p : α → Bool) (h : ∀ a, p (f a) = p a) :
    ∀ l : List α, (l.map f).any p = l.any p
  | [] => rfl
  | a :: t => by
    simp only [List.map_cons, List.any_cons, h a, any_map_eq f p h t]

theorem countP_map_eq (f : α → α) (p : α → Bool) (h : ∀ a, p (f a) = p a) :
    ∀ l : List α, (l.map f).countP p = l.countP p
  | [] => rfl
  | a :: t => by
    simp only [List.map_cons, List.countP_cons, h a, countP_map_eq f p h t]

theorem map_idem (f : α → α) (h : ∀ a, f (f a) = f a) :
    ∀ l : List α, (l.map f).map f = l.map f
  | [] => rfl
  | a :: t => by
    simp only [List.map_cons, h a, map_idem f h t]

theorem map_eq_self (f : α → α) :
    ∀ l : List α, (∀ a ∈ l, f a = a) → l.map f = l
  | [], _ => rfl
  | a :: t, h => by
    simp only [List.map_cons, h a (List.mem_cons_self a t),
      map_eq_self f t (fun x hx => h x (List.mem_cons_of_mem a hx))]

end ListLemmas

/-! ## Row-update and table-operation lemmas -/

theorem custUpd_key (uid : Nat) (c : String) (r : UserRow) :
    (custUpd uid c r).telegram_user_id = r.telegram_user_id := by
  unfold custUpd; split <;> rfl

theorem custUpd_lang (uid : Nat) (c : String) (r : UserRow) :
    (custUpd uid c r).language = r.language := by
  unfold custUpd; split <;> rfl

theorem langUpd_key (uid : Nat) (lang : String) (r : UserRow) :
    (langUpd uid lang r).telegram_user_id = r.telegram_user_id := by
  unfold langUpd; split <;> rfl

theorem subUpd_key (uid : Nat) (sid st : String) (s : SubscriptionRow) :
    (subUpd uid sid st s).telegram_user_id = s.telegram_user_id := by
  unfold subUpd; split <;> rfl

theorem statusUpd_key (sid st : String) (s : SubscriptionRow) :
    (statusUpd sid st s).telegram_user_id = s.telegram_user_id := by
  unfold statusUpd; split <;> rfl

theorem custUpd_idem (uid : Nat) (c : String) (r : UserRow) :
    custUpd uid c (custUpd uid c r) = custUpd uid c r := by
  unfold custUpd
  by_cases h : (r.telegram_user_id == uid) = true <;> simp [h]

theorem subUpd_idem (uid : Nat) (sid st : String) (s : SubscriptionRow) :
    subUpd uid sid st (subUpd uid sid st s) = subUpd uid sid st s := by
  unfold subUpd
  by_cases h : (s.telegram_user_id == uid) = true <;> simp [h]

theorem ensure_subs (uid : Nat) (db : Db) :
    (ensureUserExists uid db).subscriptions = db.subscriptions := by
  unfold ensureUserExists; split <;> rfl

theorem ensure_any_self (uid : Nat) (db : Db) :
    (ensureUserExists uid db).users.any
      (fun r => r.telegram_user_id == uid) = true := by
  unfold ensureUserExists
  split
  next h => exact h
  next h => simp [List.any_append]

theorem ensure_eq_of_any (uid : Nat) (db : Db)
    (h : db.users.any (fun r => r.telegram_user_id == uid) = true) :
    ensureUserExists uid db = db := by
  unfold ensureUserExists; simp [h]

theorem updateUserCustomer_subs (uid : Nat) (c : String) (db : Db) :
    (updateUserCustomer uid c db).subscriptions = db.subscriptions := rfl

theorem updateUserCustomer_any (uid v : Nat) (c : String) (db : Db) :
    (updateUserCustomer uid c db).users.any (fun r => r.telegram_user_id == v)
      = db.users.any (fun r => r.telegram_user_id == v) :=
  any_map_eq _ _ (fun a => by rw [custUpd_key]) db.users

theorem upsertSubscriptionRow_users (uid : Nat) (sid : String)
    (st : Option String) (db : Db) :
    (upsertSubscriptionRow uid sid st db).users = db.users := by
  unfold upsertSubscriptionRow; split <;> rfl

theorem setSub_users_any (uid v : Nat) (c sid : String) (st : Option String)
    (db : Db) :
    (setSubscriptionFromCheckout uid c sid st db).users.any
        (fun r => r.telegram_user_id == v)
      = db.users.any (fun r => r.telegram_user_id == v) := by
  unfold setSubscriptionFromCheckout
  rw [upsertSubscriptionRow_users, updateUserCustomer_any]

theorem updateUserCustomer_idem (uid : Nat) (c : String) (db : Db) :
    updateUserCustomer uid c (updateUserCustomer uid c db)
      = updateUserCustomer uid c db := by
  unfold updateUserCustomer
  simp [map_idem _ (custUpd_idem uid c)]

theorem upsertSubscriptionRow_eq_of_any (uid : Nat) (sid : String)
    (st : Option String) (db : Db)
    (h : db.subscriptions.any (fun s => s.telegram_user_id == uid) = true) :
    upsertSubscriptionRow uid sid st db
      = { db with subscriptions :=
            (db.subscriptions.map
              (subUpd uid sid ((truthyStr st).getD "active"))) } := by
  unfold upsertSubscriptionRow; rw [if_pos h]

theorem upsertSubscriptionRow_eq_append (uid : Nat) (sid : String)
    (st : Option String) (db : Db)
    (h : ¬ db.subscriptions.any (fun s => s.telegram_user_id == uid) = true) :
    upsertSubscriptionRow uid sid st db
      = { db with subscriptions :=
            db.subscriptions ++
              [⟨uid, some sid, (truthyStr st).getD "active"⟩] } := by
  unfold upsertSubscriptionRow; rw [if_neg h]

theorem upsertSubscriptionRow_any_self (uid : Nat) (sid : String)
    (st : Option String) (db : Db) :
    (upsertSubscriptionRow uid sid st db).subscriptions.any
      (fun s => s.telegram_user_id == uid) = true := by
  by_cases h : db.subscriptions.any (fun s => s.telegram_user_id == uid) = true
  · rw [upsertSubscriptionRow_eq_of_any uid sid st db h]
    show (db.subscriptions.map _).any _ = true
    rw [any_map_eq _ _ (fun a => by rw [subUpd_key])]
    exact h
  · rw [upsertSubscriptionRow_eq_append uid sid st db h]
    simp [List.any_append]

theorem upsertSubscriptionRow_idem (uid : Nat) (sid : String)
    (st : Option String) (db : Db) :
    upsertSubscriptionRow uid sid st (upsertSubscriptionRow uid sid st db)
      = upsertSubscriptionRow uid sid st db := by
  rw [upsertSubscriptionRow_eq_of_any uid sid st _
    (upsertSubscriptionRow_any_self uid sid st db)]
  by_cases h : db.subscriptions.any (fun s => s.telegram_user_id == uid) = true
  · rw [upsertSubscriptionRow_eq_of_any uid sid st db h]
    simp [map_idem _ (subUpd_idem uid sid _)]
  · rw [upsertSubscriptionRow_eq_append uid sid st db h]
    have hall : ∀ x ∈ db.subscriptions,
        subUpd uid sid ((truthyStr st).getD "active") x = x := by
      intro x hx
      unfold subUpd
      rw [if_neg]
      intro hc
      exact h (List.any_eq_true.2 ⟨x, hx, hc⟩)
    simp [List.map_append, map_eq_self _ _ hall, subUpd]

theorem updateUserCustomer_upsert_comm (uid u2 : Nat) (c sid : String)
    (st : Option String) (db : Db) :
    updateUserCustomer uid c (upsertSubscriptionRow u2 sid st db)
      = upsertSubscriptionRow u2 sid st (updateUserCustomer uid c db) := by
  by_cases h : db.subscriptions.any (fun s => s.telegram_user_id == u2) = true
  · rw [upsertSubscriptionRow_eq_of_any _ _ _ _ h,
      upsertSubscriptionRow_eq_of_any _ _ _ _ (show (updateUserCustomer uid c
        db).subscriptions.any (fun s => s.telegram_user_id == u2) = true from h)]
    rfl
  · rw [upsertSubscriptionRow_eq_append _ _ _ _ h,
      upsertSubscriptionRow_eq_append _ _ _ _ (show ¬ (updateUserCustomer uid c
        db).subscriptions.any (fun s => s.telegram_user_id == u2) = true from h)]
    rfl

theorem setSub_idem (uid : Nat) (c sid : String) (st : Option String) (db : Db) :
    setSubscriptionFromCheckout uid c sid st
        (setSubscriptionFromCheckout uid c sid st db)
      = setSubscriptionFromCheckout uid c sid st db := by
  unfold setSubscriptionFromCheckout
  rw [updateUserCustomer_upsert_comm, updateUserCustomer_idem,
    upsertSubscriptionRow_idem]

theorem handleStripeEvent_checkout (e : StripeEvent) (uid : Nat) (c sid : String)
    (db : Db) (he : e.type = "checkout.session.completed")
    (hf : checkoutFields e.metadata_telegram_user_id e.customer e.subscription
      = some (uid, c, sid)) :
    handleStripeEvent e db
      = setSubscriptionFromCheckout uid c sid (some "active")
          (ensureUserExists uid db) := by
  simp [handleStripeEvent, he, hf]

theorem countSubsFor_upsert_self (uid : Nat) (sid : String) (st : Option String)
    (db : Db) (h1 : countSubsFor uid db ≤ 1) :
    countSubsFor uid (upsertSubscriptionRow uid sid st db) = 1 := by
  by_cases h : db.subscriptions.any (fun s => s.telegram_user_id == uid) = true
  · rw [upsertSubscriptionRow_eq_of_any _ _ _ _ h]
    unfold countSubsFor at *
    show (db.subscriptions.map _).countP _ = 1
    rw [countP_map_eq _ _ (fun a => by rw [subUpd_key])]
    have hpos : 0 < db.subscriptions.countP
        (fun s => s.telegram_user_id == uid) := by
      rw [List.countP_pos_iff]
      exact List.any_eq_true.1 h
    omega
  · rw [upsertSubscriptionRow_eq_append _ _ _ _ h]
    unfold countSubsFor
    show (db.subscriptions ++ [_]).countP _ = 1
    rw [List.countP_append]
    have hz : db.subscriptions.countP
        (fun s => s.telegram_user_id == uid) = 0 := by
      rw [List.countP_eq_zero]
      intro a ha hp
      exact h (List.any_eq_true.2 ⟨a, ha, hp⟩)
    simp [hz, List.countP_cons]

theorem countSubsFor_ensure (v uid : Nat) (db : Db) :
    countSubsFor v (ensureUserExists uid db) = countSubsFor v db := by
  unfold countSubsFor
  rw [ensure_subs]

theorem upsert_self_spec (uid : Nat) (sid : String) (st : Option String) (db : Db) :
    ∀ x ∈ (upsertSubscriptionRow uid sid st db).subscriptions,
      x.telegram_user_id = uid →
      x.stripe_subscription_id = some sid ∧
        x.status = (truthyStr st).getD "active" := by
  intro x hx hkey
  by_cases h : db.subscriptions.any (fun s => s.telegram_user_id == uid) = true
  · rw [upsertSubscriptionRow_eq_of_any _ _ _ _ h] at hx
    obtain ⟨a, ha, rfl⟩ := List.mem_map.1 hx
    unfold subUpd at hkey ⊢
    by_cases hk : (a.telegram_user_id == uid) = true
    · simp [hk]
    · rw [if_neg hk] at hkey ⊢
      exact absurd (by simp [hkey]) hk
  · rw [upsertSubscriptionRow_eq_append _ _ _ _ h] at hx
    rcases List.mem_append.1 hx with hl | hr
    · exact absurd (List.any_eq_true.2 ⟨x, hl, by simp [hkey]⟩) h
    · simp only [List.mem_singleton] at hr
      subst hr
      exact ⟨rfl, rfl⟩

theorem updateUserCustomer_spec (uid : Nat) (c : String) (db : Db) :
    ∀ r ∈ (updateUserCustomer uid c db).users, r.telegram_user_id = uid →
      r.stripe_customer_id = some c := by
  intro r hr hkey
  obtain ⟨a, ha, rfl⟩ := List.mem_map.1 hr
  unfold custUpd at hkey ⊢
  by_cases hk : (a.telegram_user_id == uid) = true
  · simp [hk]
  · rw [if_neg hk] at hkey ⊢
    exact absurd (by simp [hkey]) hk

/-! ## Database effect of the bot handlers -/

theorem botStart_fst (uid : Nat) (db : Db) :
    (botStart uid db).1 = ensureUserExists uid db := by
  simp only [botStart]
  split
  · rfl
  · split <;> rfl

theorem botMore_fst (uid : Nat) (db : Db) : (botMore uid db).1 = db := by
  simp only [botMore]
  split <;> rfl

theorem botSubscribe_fst (uid : Nat) (ok : Bool) (db : Db) :
    (botSubscribe uid ok db).1 = db := by
  simp only [botSubscribe]
  split <;> split <;> rfl

theorem botManage_fst (uid : Nat) (ok : Bool) (db : Db) :
    (botManage uid ok db).1 = db := by
  simp only [botManage]
  split
  · rfl
  · split
    · rfl
    · split <;> rfl

/-! ## Preservation of the language invariant -/

theorem langInv_of_users_eq (db db' : Db) (he : db'.users = db.users)
    (h : langInv db) : langInv db' := by
  intro r hr
  rw [he] at hr
  exact h r hr

theorem langInv_ensure (uid : Nat) (db : Db) (h : langInv db) :
    langInv (ensureUserExists uid db) := by
  unfold ensureUserExists
  split
  · exact h
  · intro r hr
    rcases List.mem_append.1 hr with hl | hr2
    · exact h r hl
    · simp only [List.mem_singleton] at hr2
      subst hr2
      exact Or.inl rfl

theorem langInv_upsertLang (uid : Nat) (lang : String)
    (hl : lang = "ru" ∨ lang = "lv") (db : Db) (h : langInv db) :
    langInv (upsertUserLanguage uid lang db) := by
  unfold upsertUserLanguage
  split
  · intro r hr
    obtain ⟨a, ha, rfl⟩ := List.mem_map.1 hr
    unfold langUpd
    split
    · simpa using hl
    · exact h a ha
  · intro r hr
    rcases List.mem_append.1 hr with h1 | h2
    · exact h r h1
    · simp only [List.mem_singleton] at h2
      subst h2
      simpa using hl

theorem langInv_updCust (uid : Nat) (c : String) (db : Db) (h : langInv db) :
    langInv (updateUserCustomer uid c db) := by
  intro r hr
  obtain ⟨a, ha, rfl⟩ := List.mem_map.1 hr
  rw [custUpd_lang]
  exact h a ha

theorem langInv_handle (e : StripeEvent) (db : Db) (h : langInv db) :
    langInv (handleStripeEvent e db) := by
  unfold handleStripeEvent
  split
  · split
    · exact h
    · next uid cust sub heq =>
      exact langInv_of_users_eq _ _
        (upsertSubscriptionRow_users uid sub (some "active")
          (updateUserCustomer uid cust (ensureUserExists uid db)))
        (langInv_updCust uid cust _ (langInv_ensure uid db h))
  · split
    · split
      · exact langInv_of_users_eq _ _ rfl h
      · exact h
    · split
      · split
        · exact langInv_of_users_eq _ _ rfl h
        · exact h
      · exact h

theorem langInv_applyBotOp (op : BotOp) (db : Db) (h : langInv db) :
    langInv (applyBotOp op db) := by
  cases op with
  | start uid =>
    show langInv (botStart uid db).1
    rw [botStart_fst]
    exact langInv_ensure uid db h
  | changeLang => exact h
  | langRu uid => exact langInv_upsertLang uid "ru" (Or.inl rfl) db h
  | langLv uid => exact langInv_upsertLang uid "lv" (Or.inr rfl) db h
  | more uid =>
    show langInv (botMore uid db).1
    rw [botMore_fst]
    exact h
  | subscribe uid ok =>
    show langInv (botSubscribe uid ok db).1
    rw [botSubscribe_fst]
    exact h
  | manage uid ok =>
    show langInv (botManage uid ok db).1
    rw [botManage_fst]
    exact h

theorem langInv_applySysOp (op : SysOp) (db : Db) (h : langInv db) :
    langInv (applySysOp op db) := by
  cases op with
  | bot b => exact langInv_applyBotOp b db h
  | webhook v =>
    cases v with
    | none => exact h
    | some e => exact langInv_handle e db h

theorem langInv_runSysOps (ops : List SysOp) (db : Db) (h : langInv db) :
    langInv (runSysOps ops db) := by
  induction ops generalizing db with
  | nil => exact h
  | cons o t ih =>
    show langInv (runSysOps t (applySysOp o db))
    exact ih _ (langInv_applySysOp o db h)

theorem applyBotOp_subs (op : BotOp) (db : Db) :
    (applyBotOp op db).subscriptions = db.subscriptions := by
  cases op with
  | start uid =>
    show (botStart uid db).1.subscriptions = _
    rw [botStart_fst]
    exact ensure_subs uid db
  | changeLang => rfl
  | langRu uid =>
    show (upsertUserLanguage uid "ru" db).subscriptions = _
    unfold upsertUserLanguage
    split <;> rfl
  | langLv uid =>
    show (upsertUserLanguage uid "lv" db).subscriptions = _
    unfold upsertUserLanguage
    split <;> rfl
  | more uid =>
    show (botMore uid db).1.subscriptions = _
    rw [botMore_fst]
  | subscribe uid ok =>
    show (botSubscribe uid ok db).1.subscriptions = _
    rw [botSubscribe_fst]
  | manage uid ok =>
    show (botManage uid ok db).1.subscriptions = _
    rw [botManage_fst]

/-! ## Claim theorems -/

/-- Claim C1: for every checkout-completed event carrying a telegram user
id, customer id and subscription id, delivering the event twice leaves the
subscriptions store in the same state as delivering it once: exactly one
Subscription row for that telegram user id, with status "active"
(`setSubscriptionFromCheckout` is idempotent).  The count hypothesis is the
primary-key uniqueness of the `subscriptions` table at that key. -/
theorem checkout_redelivery_idempotent (e : StripeEvent) (uid : Nat)
    (c sid : String) (db : Db)
    (he : e.type = "checkout.session.completed")
    (hf : checkoutFields e.metadata_telegram_user_id e.customer e.subscription
      = some (uid, c, sid))
    (hatmost : countSubsFor uid db ≤ 1) :
    handleStripeEvent e (handleStripeEvent e db) = handleStripeEvent e db ∧
    countSubsFor uid (handleStripeEvent e db) = 1 ∧
    ∀ s ∈ (handleStripeEvent e db).subscriptions,
      s.telegram_user_id = uid → s.status = "active" := by
  rw [handleStripeEvent_checkout e uid c sid db he hf]
  refine ⟨?_, ?_, ?_⟩
  · rw [handleStripeEvent_checkout e uid c sid _ he hf,
      ensure_eq_of_any uid _
        (by rw [setSub_users_any]; exact ensure_any_self uid db)]
    exact setSub_idem uid c sid _ _
  · unfold setSubscriptionFromCheckout
    rw [countSubsFor_upsert_self]
    show countSubsFor uid (ensureUserExists uid db) ≤ 1
    rw [countSubsFor_ensure]
    exact hatmost
  · unfold setSubscriptionFromCheckout
    intro s hs hk
    have h2 := (upsert_self_spec uid sid (some "active") _ s hs hk).2
    simpa using h2

/-- Witness for C1 at a concrete event and the empty database. -/
theorem checkout_redelivery_idempotent_witness :
    handleStripeEvent evCheckout42 (handleStripeEvent evCheckout42 Db.empty)
        = handleStripeEvent evCheckout42 Db.empty ∧
    countSubsFor 42 (handleStripeEvent evCheckout42 Db.empty) = 1 ∧
    ∀ s ∈ (handleStripeEvent evCheckout42 Db.empty).subscriptions,
      s.telegram_user_id = 42 → s.status = "active" :=
  checkout_redelivery_idempotent evCheckout42 42 "cus_1" "sub_1" Db.empty rfl
    (by decide) (by decide)

/-- Claim C2: a webhook request whose signature fails verification
(`constructEvent` throws) is answered with status 400 with no database
mutation: users and subscriptions are unchanged. -/
theorem invalid_signature_rejected (db : Db) :
    stripeWebhook none db = (400, db) := rfl

/-- Claim C4: a `customer.subscription.updated` event whose subscription id
matches no existing row changes no table row, creates none, and the
endpoint still responds 200 (no error propagates). -/
theorem unknown_subscription_update_noop (e : StripeEvent) (sid : String)
    (db : Db) (he : e.type = "customer.subscription.updated")
    (hid : truthyStr e.sub_id = some sid)
    (hunknown : ∀ s ∈ db.subscriptions, s.stripe_subscription_id ≠ some sid) :
    stripeWebhook (some e) db = (200, db) := by
  have hset : ∀ st : String, setSubscriptionStatusBySubId sid st db = db := by
    intro st
    unfold setSubscriptionStatusBySubId
    have hm : db.subscriptions.map (statusUpd sid st) = db.subscriptions :=
      map_eq_self _ _ (fun s hs => by
        unfold statusUpd
        rw [if_neg]
        intro hc
        exact hunknown s hs (by simpa using hc))
    rw [hm]
  cases hst : truthyStr e.sub_status with
  | none => simp [stripeWebhook, handleStripeEvent, he, hid, hst]
  | some st => simp [stripeWebhook, handleStripeEvent, he, hid, hst, hset st]

/-- Witness for C4: an update for an unknown subscription id against a
store holding one unrelated subscription row. -/
theorem unknown_subscription_update_noop_witness :
    stripeWebhook
        (some ⟨"customer.subscription.updated", none, none, none,
          some "sub_x", some "past_due"⟩)
        ⟨[⟨7, "ru", none⟩], [⟨7, some "sub_1", "active"⟩]⟩
      = (200, ⟨[⟨7, "ru", none⟩], [⟨7, some "sub_1", "active"⟩]⟩) :=
  unknown_subscription_update_noop
    ⟨"customer.subscription.updated", none, none, none, some "sub_x",
      some "past_due"⟩ "sub_x"
    ⟨[⟨7, "ru", none⟩], [⟨7, some "sub_1", "active"⟩]⟩
    rfl (by decide) (by decide)

/-- Claim C5: a validly signed event whose type is none of the three
handled ones leaves both tables unchanged and the endpoint responds 200. -/
theorem unrecognized_event_acknowledged (e : StripeEvent) (db : Db)
    (h1 : e.type ≠ "checkout.session.completed")
    (h2 : e.type ≠ "customer.subscription.updated")
    (h3 : e.type ≠ "customer.subscription.deleted") :
    stripeWebhook (some e) db = (200, db) := by
  simp [stripeWebhook, handleStripeEvent, h1, h2, h3]

/-- Witness for C5 at a concrete `invoice.paid` event. -/
theorem unrecognized_event_acknowledged_witness :
    stripeWebhook (some ⟨"invoice.paid", none, none, none, none, none⟩) Db.empty
      = (200, Db.empty) :=
  unrecognized_event_acknowledged ⟨"invoice.paid", none, none, none, none, none⟩
    Db.empty (by decide) (by decide) (by decide)

/-- Claim C6: a checkout-completed event with telegram user id, customer id
and subscription id all present sets that user's `stripe_customer_id` to
the event's customer id and upserts the user's subscription row with the
event's subscription id and status "active". -/
theorem checkout_completed_links_and_activates (e : StripeEvent) (uid : Nat)
    (c sid : String) (db : Db)
    (he : e.type = "checkout.session.completed")
    (hf : checkoutFields e.metadata_telegram_user_id e.customer e.subscription
      = some (uid, c, sid)) :
    (∃ r ∈ (handleStripeEvent e db).users, r.telegram_user_id = uid) ∧
    (∀ r ∈ (handleStripeEvent e db).users, r.telegram_user_id = uid →
      r.stripe_customer_id = some c) ∧
    (∃ s ∈ (handleStripeEvent e db).subscriptions, s.telegram_user_id = uid) ∧
    (∀ s ∈ (handleStripeEvent e db).subscriptions, s.telegram_user_id = uid →
      s.stripe_subscription_id = some sid ∧ s.status = "active") := by
  rw [handleStripeEvent_checkout e uid c sid db he hf]
  unfold setSubscriptionFromCheckout
  refine ⟨?_, ?_, ?_, ?_⟩
  · have hany : (upsertSubscriptionRow uid sid (some "active")
        (updateUserCustomer uid c (ensureUserExists uid db))).users.any
          (fun r => r.telegram_user_id == uid) = true := by
      rw [upsertSubscriptionRow_users, updateUserCustomer_any]
      exact ensure_any_self uid db
    obtain ⟨r, hr, hp⟩ := List.any_eq_true.1 hany
    exact ⟨r, hr, by simpa using hp⟩
  · intro r hr hk
    rw [upsertSubscriptionRow_users] at hr
    exact updateUserCustomer_spec uid c _ r hr hk
  · have hany := upsertSubscriptionRow_any_self uid sid (some "active")
      (updateUserCustomer uid c (ensureUserExists uid db))
    obtain ⟨s, hs, hp⟩ := List.any_eq_true.1 hany
    exact ⟨s, hs, by simpa using hp⟩
  · intro s hs hk
    have hsp := upsert_self_spec uid sid (some "active") _ s hs hk
    simpa using hsp

/-- Witness for C6 at a concrete event and the empty database. -/
theorem checkout_completed_links_and_activates_witness :
    (∃ r ∈ (handleStripeEvent evCheckout42 Db.empty).users,
      r.telegram_user_id = 42) ∧
    (∀ r ∈ (handleStripeEvent evCheckout42 Db.empty).users,
      r.telegram_user_id = 42 → r.stripe_customer_id = some "cus_1") ∧
    (∃ s ∈ (handleStripeEvent evCheckout42 Db.empty).subscriptions,
      s.telegram_user_id = 42) ∧
    (∀ s ∈ (handleStripeEvent evCheckout42 Db.empty).subscriptions,
      s.telegram_user_id = 42 →
      s.stripe_subscription_id = some "sub_1" ∧ s.status = "active") :=
  checkout_completed_links_and_activates evCheckout42 42 "cus_1" "sub_1"
    Db.empty rfl (by decide)

/-- Claim C7: no sequence of bot command/action handlers alone ever writes
the subscriptions table; subscription rows change only through webhook
event handling. -/
theorem bot_actions_never_write_subscriptions (ops : List BotOp) (db : Db) :
    (runBotOps ops db).subscriptions = db.subscriptions := by
  induction ops generalizing db with
  | nil => rfl
  | cons o t ih =>
    show (runBotOps t (applyBotOp o db)).subscriptions = _
    rw [ih (applyBotOp o db), applyBotOp_subs]

/-- Claim C8: handling `/start` for a user whose row already exists leaves
the whole users table (in particular that row's language and
`stripe_customer_id`) unchanged: `ensureUserExists` inserts with
do-nothing on conflict and `/start` performs no other write. -/
theorem start_existing_user_row_unchanged (uid : Nat) (db : Db)
    (h : ∃ r ∈ db.users, r.telegram_user_id = uid) :
    (botStart uid db).1 = db := by
  have hany : db.users.any (fun r => r.telegram_user_id == uid) = true := by
    obtain ⟨r, hr, hk⟩ := h
    exact List.any_eq_true.2 ⟨r, hr, by simp [hk]⟩
  rw [botStart_fst, ensure_eq_of_any uid db hany]

/-- Witness for C8: a store already holding user 42 with language "lv". -/
theorem start_existing_user_row_unchanged_witness :
    (botStart 42 (⟨[⟨42, "lv", none⟩], []⟩ : Db)).1
      = (⟨[⟨42, "lv", none⟩], []⟩ : Db) :=
  start_existing_user_row_unchanged 42 ⟨[⟨42, "lv", none⟩], []⟩ (by decide)

/-- Claim C9: in every state reachable from the empty database by any
sequence of bot and webhook operations, every users row has language
"ru" or "lv". -/
theorem reachable_language_ru_or_lv (ops : List SysOp) :
    langInv (runSysOps ops Db.empty) :=
  langInv_runSysOps ops Db.empty (by intro r hr; cases hr)

/-- Claim C10: a `manage` action from a user with no stored
`stripe_customer_id` (or no record at all) replies with the localized
subscribe-first message, creates no billing-portal session and performs no
database write. -/
theorem manage_without_customer_no_portal (uid : Nat) (ok : Bool) (db : Db)
    (h : ∀ r ∈ db.users, r.telegram_user_id = uid →
      truthyStr r.stripe_customer_id = none) :
    (botManage uid ok db).1 = db ∧
    ∃ lang, (botManage uid ok db).2
      = ManageOutcome.subscribeFirstMsg (subscribeFirstText lang) := by
  cases hu : getUser uid db with
  | none =>
    refine ⟨by simp [botManage, hu], "ru", by simp [botManage, hu]⟩
  | some u =>
    have hu2 : db.users.find? (fun r => r.telegram_user_id == uid) = some u := hu
    have hcust : truthyStr u.stripe_customer_id = none :=
      h u (List.mem_of_find?_eq_some hu2)
        (by simpa using List.find?_some hu2)
    refine ⟨by simp [botManage, hu, hcust],
      (truthyStr (some u.language)).getD "ru", by simp [botManage, hu, hcust]⟩

/-- Witness for C10: user 7 exists but has no customer id; the reply is the
subscribe-first message and the store is untouched. -/
theorem manage_without_customer_no_portal_witness :
    (botManage 7 true (⟨[⟨7, "ru", none⟩], []⟩ : Db)).1
        = (⟨[⟨7, "ru", none⟩], []⟩ : Db) ∧
    ∃ lang, (botManage 7 true (⟨[⟨7, "ru", none⟩], []⟩ : Db)).2
      = ManageOutcome.subscribeFirstMsg (subscribeFirstText lang) :=
  manage_without_customer_no_portal 7 true ⟨[⟨7, "ru", none⟩], []⟩ (by decide)

/-- Claim C3 (evaluation at the failing input): a user with no stored
language who sends `/start` on a fresh store is answered with the Russian
welcome, not the language-selection prompt — `ensureUserExists` runs before
the language read and the schema default makes the stored language "ru". -/
theorem start_fresh_user_gets_ru_welcome :
    (botStart 42 Db.empty).2 = "Добро пожаловать в Health Lab Padel - RU" ∧
    (botStart 42 Db.empty).2 ≠ langPromptText := by
  constructor
  · rfl
  · decide

end HealthLabPadel
